import Mathlib

/-
  Verification of the V2X surrogate-safety core (shasha30/V2X_Communication).

  Shallow embedding of the repository's metrics-and-classification engine:
  the kinematics helpers, the vehicle-vehicle conflict scan, the
  vehicle-pedestrian (VRU) single-pair check, the entity state store and the
  telemetry ring buffers.  Python floats are modelled as real numbers; the
  float value `inf` (and the NaN that `v2x_server_ssm.py` can produce for its
  PET proxy, which compares exactly like `inf` in every guard) is modelled as
  `none` in `Option ℝ`.  Python `round(x, 3)` is modelled by `round3` (the
  half-to-even difference from Python's bankers' rounding is irrelevant to
  every statement below, none of which sits on a half-thousandth boundary).

  Two layers are embedded from the source:
  * a total layer (`check_vehicle_risk`, `vru_check_risk`, ...) over
    well-formed positions `(x, y) : ℝ × ℝ`, which is how the store is
    populated in normal operation; and
  * a fallible layer (`check_vehicle_riskE`, `vru_check_riskE`) in which a
    position is a raw Python list (`List ℝ`) and index errors propagate as
    `Except`, mirroring the single request-level `try/except` of the source.
-/

namespace V2X

open Classical

noncomputable section

/-! ## Kinematics library (ssm_server.py lines 80-116, v2x_server_ssm.py 12-53) -/

/-- `math.hypot dx dy`. -/
def hypot (x y : ℝ) : ℝ := Real.sqrt (x ^ 2 + y ^ 2)

/-- `math.radians deg`. -/
def radians (deg : ℝ) : ℝ := deg * (Real.pi / 180)

/-- `euclidean_distance(p1, p2)` from the source. -/
def euclidean_distance (p1 p2 : ℝ × ℝ) : ℝ :=
  hypot (p1.1 - p2.1) (p1.2 - p2.2)

/-- `unit_vector(vx, vy)`: zero-magnitude input yields `(0, 0)` by convention. -/
def unit_vector (vx vy : ℝ) : ℝ × ℝ :=
  let mag := hypot vx vy
  if mag = 0 then (0, 0) else (vx / mag, vy / mag)

/-- `project_speed_along_line(pos_rel, heading_speed_vec)`:
`pos_rel = other - ego`, the second argument is `ego_v - other_v`;
the source returns `-(rvx * ux + rvy * uy)`. -/
def project_speed_along_line (pos_rel vel : ℝ × ℝ) : ℝ :=
  let u := unit_vector pos_rel.1 pos_rel.2
  Neg.neg (vel.1 * u.1 + vel.2 * u.2)

/-- `compute_ttc(distance, closing_speed)`; `none` models `float('inf')`. -/
def compute_ttc (distance closing_speed : ℝ) : Option ℝ :=
  if closing_speed ≤ 0 ∨ distance ≤ 0 then none
  else some (distance / closing_speed)

/-- `required_deceleration(rel_speed, distance, cushion)`:
`rel_speed ** 2 / (2.0 * max(distance - cushion, 1e-3))`. -/
def required_deceleration (rel_speed distance cushion : ℝ) : ℝ :=
  rel_speed ^ 2 / (2 * max (distance - cushion) (1 / 1000))

/-- `time_headway(distance, follower_speed)`; `none` models `float('inf')`. -/
def time_headway (distance follower_speed : ℝ) : Option ℝ :=
  if follower_speed ≤ 0 then none
  else some (distance / follower_speed)

/-- The velocity vector every endpoint builds from a snapshot:
`(speed * cos(radians(heading)), speed * sin(radians(heading)))`. -/
def velVec (speed heading : ℝ) : ℝ × ℝ :=
  (speed * Real.cos (radians heading), speed * Real.sin (radians heading))

/-- Python `round(x, 3)` (see the file comment about half-thousandths). -/
def round3 (x : ℝ) : ℝ := ((round (1000 * x) : ℤ) : ℝ) / 1000

/-- The closing speed of the pair (ego `A`, other `B`) exactly as every call
site builds it: `project_speed_along_line(other - ego, ego_v - other_v)`. -/
def closingSpeed (pA vA pB vB : ℝ × ℝ) : ℝ :=
  project_speed_along_line (pB.1 - pA.1, pB.2 - pA.2) (vA.1 - vB.1, vA.2 - vB.2)

/-! ## Entity state store (`vehicle_states`, a Python dict keyed by id) -/

/-- A stored vehicle snapshot (well-formed position). -/
structure VState where
  position : ℝ × ℝ
  speed : ℝ
  heading : ℝ
  timestamp : ℝ

/-- The `vehicle_states` map, as an insertion-ordered association list,
mirroring Python-dict iteration order. -/
abbrev Store := List (String × VState)

/-- Python dict assignment `m[k] = v`: replace in place when the key exists
(keeping its position), otherwise append. -/
def upsert {β : Type} (s : List (String × β)) (k : String) (v : β) :
    List (String × β) :=
  if s.any (fun kv => kv.1 == k) then
    s.map (fun kv => if kv.1 = k then (k, v) else kv)
  else s ++ [(k, v)]

/-! ## Vehicle-vehicle scan (`check_vehicle_risk`) -/

/-- Raw (unrounded) per-pair SSM values as the loop body computes them. -/
structure Raw where
  distance : ℝ
  closing : ℝ
  delta_v : ℝ
  ttc : Option ℝ
  req_dec : ℝ
  thw : Option ℝ

/-- The per-pair kinematics of the `check_vehicle_risk` loop body
(ssm_server.py 261-277, v2x_server_ssm.py 202-233). -/
def pairRaw (pos : ℝ × ℝ) (speed heading : ℝ) (o : VState) : Raw :=
  let distance := euclidean_distance pos o.position
  let v := velVec speed heading
  let ov := velVec o.speed o.heading
  let pos_rel := (o.position.1 - pos.1, o.position.2 - pos.2)
  let relv := (v.1 - ov.1, v.2 - ov.2)
  let closing := project_speed_along_line pos_rel relv
  let ttc := compute_ttc distance closing
  let delta_v := |hypot relv.1 relv.2|
  let req_dec := required_deceleration delta_v distance 0
  let thw := time_headway distance speed
  ⟨distance, closing, delta_v, ttc, req_dec, thw⟩

/-- The TTC contribution to the risk score:
`if ttc != inf: risk += 0.6 if ttc < 1.0 else (0.3 if ttc < 2.5 else 0.0)`. -/
def ttcRiskTerm : Option ℝ → ℝ
  | none => 0
  | some t => if t < 1 then 0.6 else if t < 2.5 then 0.3 else 0

/-- The PET contribution to a risk score: `if pet < 1.0: risk += c`
(`c = 0.3` in the VRU score, `c = 0.2` in the pet-variant VV score); a
`none` (infinite/NaN) PET contributes nothing, as float `inf`/NaN fails
the `<` comparison. -/
def petRiskTerm (c : ℝ) : Option ℝ → ℝ
  | none => 0
  | some q => if q < 1 then c else 0

/-- The additive vehicle-vehicle risk score of ssm_server.py 305-312 and
v2x_server_ssm.py 248-258 (`+= 0.6 / 0.3` from TTC, `+= 0.2` from required
deceleration, `+= 0.2` from delta-v, clamped by `min(1.0, ...)`). -/
def riskVV (ttc : Option ℝ) (req_dec delta_v : ℝ) : ℝ :=
  min 1 (ttcRiskTerm ttc
    + (if req_dec > 5 then 0.2 else 0)
    + (if delta_v > 5 then 0.2 else 0))

/-- An element of the returned `alerts` list: either a per-pair collision
alert or the synthetic `safe` sentinel (which carries `time.time()`). -/
inductive Alert where
  | collision (ty : String) (fromId : String) (toId : String)
      (risk_score : ℝ) (recommended_action : String) (ttc : Option ℝ)
  | safe (timestamp : ℝ)

/-- A returned (rounded) SSM record of the base variants. -/
structure SSM where
  other_id : String
  distance : ℝ
  closing_speed : ℝ
  delta_v : ℝ
  ttc : Option ℝ
  required_deceleration : ℝ
  time_headway : Option ℝ

/-- Rounding of the per-pair record for the response (ssm_server.py 279-287). -/
def ssmOf (oid : String) (r : Raw) : SSM :=
  ⟨oid, round3 r.distance, round3 r.closing, round3 r.delta_v,
    r.ttc.map round3, round3 r.req_dec, r.thw.map round3⟩

/-- The per-pair alert classification (ssm_server.py 314-355,
v2x_server_ssm.py 260-277): `risk >= 0.8` emits `collision_imminent`,
`elif risk >= 0.4` emits `collision_warning`, otherwise nothing. -/
def alertsFor (vid oid : String) (risk : ℝ) (ttc : Option ℝ) : List Alert :=
  if risk ≥ 0.8 then
    [Alert.collision "collision_imminent" vid oid (round3 risk)
      "emergency_brake" (ttc.map round3)]
  else if risk ≥ 0.4 then
    [Alert.collision "collision_warning" vid oid (round3 risk)
      "slow_down" (ttc.map round3)]
  else []

/-- One iteration of the `for other_id, other in vehicle_states.items()`
loop; `continue` on the ego's own entry. -/
def vvStep (vid : String) (pos : ℝ × ℝ) (speed heading : ℝ)
    (acc : List SSM × List Alert) (kv : String × VState) :
    List SSM × List Alert :=
  if kv.1 = vid then acc
  else
    let raw := pairRaw pos speed heading kv.2
    (acc.1 ++ [ssmOf kv.1 raw],
     acc.2 ++ alertsFor vid kv.1 (riskVV raw.ttc raw.req_dec raw.delta_v) raw.ttc)

/-- The response of `check_vehicle_risk`. -/
structure VOut where
  vehicle_id : String
  ssm : List SSM
  alerts : List Alert

/-- `check_vehicle_risk` (ssm_server.py 235-379, v2x_server_ssm.py 171-286):
upsert the ego, scan every known entity, classify each pair, and fall back
to a single `safe` sentinel when no pair produced an alert.  Returns the
response together with the updated `vehicle_states`. -/
def check_vehicle_risk (vid : String) (pos : ℝ × ℝ) (speed heading ts : ℝ)
    (s : Store) : VOut × Store :=
  let s' := upsert s vid ⟨pos, speed, heading, ts⟩
  let scanned := s'.foldl (vvStep vid pos speed heading) ([], [])
  let alerts := if scanned.2 = [] then [Alert.safe ts] else scanned.2
  (⟨vid, scanned.1, alerts⟩, s')

/-! ## Vehicle-vehicle scan, `ssm_dash_noexcel_pet.py` variant
(adds a PET proxy to the SSM record and `+0.2` to the risk when it is
finite and below 1.0; lines 136-179 of that file). -/

/-- The PET proxy of ssm_dash_noexcel_pet.py 138-141:
`abs(distance/closing - distance/max(speed, 1e-6))` when `closing > 0` and
`speed > 0`, otherwise infinite. -/
def petProxyVV (distance closing speed : ℝ) : Option ℝ :=
  if closing > 0 ∧ speed > 0 then
    some |distance / closing - distance / max speed (1 / 1000000)|
  else none

/-- Risk score of the pet variant (lines 169-179): the base terms plus
`+0.2` when the PET proxy is finite and `< 1.0`. -/
def riskVVPet (ttc : Option ℝ) (req_dec delta_v : ℝ) (pet : Option ℝ) : ℝ :=
  min 1 (ttcRiskTerm ttc
    + (if req_dec > 5 then 0.2 else 0)
    + (if delta_v > 5 then 0.2 else 0)
    + petRiskTerm 0.2 pet)

/-- SSM record of the pet variant (has the extra `pet` field). -/
structure SSMPet where
  other_id : String
  distance : ℝ
  closing_speed : ℝ
  delta_v : ℝ
  ttc : Option ℝ
  required_deceleration : ℝ
  time_headway : Option ℝ
  pet : Option ℝ

/-- Loop body of the pet variant (ssm_dash_noexcel_pet.py 112-208); the
in-memory `ssm_buf`/`alert_buf` appends are settled separately through
`ringAppend` and do not affect the response. -/
def vvStepPet (vid : String) (pos : ℝ × ℝ) (speed heading : ℝ)
    (acc : List SSMPet × List Alert) (kv : String × VState) :
    List SSMPet × List Alert :=
  if kv.1 = vid then acc
  else
    let raw := pairRaw pos speed heading kv.2
    let pet := petProxyVV raw.distance raw.closing speed
    let risk := riskVVPet raw.ttc raw.req_dec raw.delta_v pet
    (acc.1 ++ [⟨kv.1, round3 raw.distance, round3 raw.closing,
        round3 raw.delta_v, raw.ttc.map round3, round3 raw.req_dec,
        raw.thw.map round3, pet.map round3⟩],
     acc.2 ++ alertsFor vid kv.1 risk raw.ttc)

/-- Response of the pet variant. -/
structure VOutPet where
  vehicle_id : String
  ssm : List SSMPet
  alerts : List Alert

/-- `check_vehicle_risk` of ssm_dash_noexcel_pet.py (lines 91-213). -/
def check_vehicle_risk_pet (vid : String) (pos : ℝ × ℝ)
    (speed heading ts : ℝ) (s : Store) : VOutPet × Store :=
  let s' := upsert s vid ⟨pos, speed, heading, ts⟩
  let scanned := s'.foldl (vvStepPet vid pos speed heading) ([], [])
  let alerts := if scanned.2 = [] then [Alert.safe ts] else scanned.2
  (⟨vid, scanned.1, alerts⟩, s')

/-! ## Vehicle-pedestrian check (`vru_check_risk`, ssm_server.py 134-226,
v2x_server_ssm.py 57-167, ssm_dash_noexcel_pet.py 221-300).
The three variants compute the same metrics; `v2x_server_ssm.py` builds its
PET as `abs(t_vehicle_arrive - t_ped_arrive)` with per-factor infinities
(yielding float `inf` or NaN exactly when `ps <= 0` or `closing <= 0`),
which the guards treat identically to the single-expression form embedded
here. -/

/-- Raw (unrounded) metrics of one `vru_check_risk` call. -/
structure VruRaw where
  dist : ℝ
  closing : ℝ
  delta_v : ℝ
  ttc : Option ℝ
  pet : Option ℝ
  req_dec : ℝ
  thw : Option ℝ

/-- The metric computations of `vru_check_risk` (ssm_server.py 155-169). -/
def vruRaw (vpos : ℝ × ℝ) (vs vh : ℝ) (ppos : ℝ × ℝ) (ps ph : ℝ) : VruRaw :=
  let dist := euclidean_distance vpos ppos
  let vv := velVec vs vh
  let pv := velVec ps ph
  let relv := (vv.1 - pv.1, vv.2 - pv.2)
  let pos_rel := (ppos.1 - vpos.1, ppos.2 - vpos.2)
  let closing := project_speed_along_line pos_rel relv
  let ttc := compute_ttc dist closing
  let pet := if ps > 0 ∧ closing > 0 then some |dist / ps - dist / closing|
             else none
  let delta_v := |hypot relv.1 relv.2|
  let req_dec := required_deceleration delta_v dist 0
  let thw := time_headway dist vs
  ⟨dist, closing, delta_v, ttc, pet, req_dec, thw⟩

/-- The additive VRU risk score (ssm_server.py 171-179): `0.6/0.3` from TTC,
`+0.3` when PET `< 1.0`, `+0.2` when required deceleration `> 5.0`,
clamped by `min(1.0, ...)`. -/
def vruRiskScore (ttc pet : Option ℝ) (req_dec : ℝ) : ℝ :=
  min 1 (ttcRiskTerm ttc + petRiskTerm 0.3 pet
    + (if req_dec > 5 then 0.2 else 0))

/-- The guard-based action/severity cascade (ssm_server.py 181-186;
float comparisons against `inf`/NaN are false, hence the `none => False`). -/
def vruActionSeverity (ttc pet : Option ℝ) (req_dec : ℝ) : String × String :=
  if (match ttc with | none => False | some t => t < 1)
      ∨ (match pet with | none => False | some q => q < 0.5)
      ∨ req_dec > 6 then
    ("emergency_brake", "high")
  else if (match ttc with | none => False | some t => t < 2.5)
      ∨ (match pet with | none => False | some q => q < 1.5)
      ∨ req_dec > 3 then
    ("slow_down", "medium")
  else ("keep", "low")

/-- The JSON response of `vru_check_risk` (ssm_server.py 188-202). -/
structure VruResp where
  vehicle_id : String
  pedestrian_id : String
  distance : ℝ
  closing_speed : ℝ
  delta_v : ℝ
  ttc : Option ℝ
  pet : Option ℝ
  required_deceleration : ℝ
  time_headway : Option ℝ
  risk_score : ℝ
  recommended_action : String
  severity : String
  timestamp : ℝ

/-- `vru_check_risk`: the single-pair vehicle-pedestrian evaluation. -/
def vru_check_risk (vidV : String) (vpos : ℝ × ℝ) (vs vh : ℝ)
    (vidP : String) (ppos : ℝ × ℝ) (ps ph : ℝ) (ts : ℝ) : VruResp :=
  let r := vruRaw vpos vs vh ppos ps ph
  let risk := vruRiskScore r.ttc r.pet r.req_dec
  let acts := vruActionSeverity r.ttc r.pet r.req_dec
  ⟨vidV, vidP, round3 r.dist, round3 r.closing, round3 r.delta_v,
    r.ttc.map round3, r.pet.map round3, round3 r.req_dec, r.thw.map round3,
    round3 risk, acts.1, acts.2, ts⟩

/-! ## Telemetry ring buffers (`deque(maxlen=BUF_SIZE)`,
ssm_dash_noexcel_pet.py 28-33, ssm_dash_noexcel.py 35-39) -/

/-- `BUF_SIZE = 20000` from the source. -/
def BUF_SIZE : ℕ := 20000

/-- `deque(maxlen=k).append(x)`: append, evicting from the left (the
oldest entries) when the buffer is full. -/
def ringAppend {α : Type} (k : ℕ) (buf : List α) (x : α) : List α :=
  if buf.length < k then buf ++ [x]
  else (buf ++ [x]).drop (buf.length + 1 - k)

/-! ## Fallible layer: raw Python payloads and exception propagation.
In the source the entire scan sits inside one request-level `try/except`;
any exception raised while computing one pair (for example an `IndexError`
from a malformed stored `position`, which an earlier `check_vehicle` call
accepts unvalidated) aborts the loop and the handler answers with an error
response.  The `Except` monad mirrors that propagation. -/

/-- The modelled per-pair failure: indexing a too-short `position`. -/
inductive Err where
  | indexError
deriving DecidableEq

/-- A stored snapshot whose `position` is the raw Python list. -/
structure EState where
  position : List ℝ
  speed : ℝ
  heading : ℝ
  timestamp : ℝ

/-- `p[0]`, `p[1]` on a Python list: `IndexError` when too short. -/
def getXY : List ℝ → Except Err (ℝ × ℝ)
  | x :: y :: _ => .ok (x, y)
  | _ => .error .indexError

/-- `true` exactly on `Except.ok`. -/
def exOk {ε α : Type} : Except ε α → Bool
  | .ok _ => true
  | .error _ => false

/-- Fallible per-pair computation: extract both positions, then run the
(total) loop-body kinematics. -/
def pairRawE (pos : List ℝ) (speed heading : ℝ) (o : EState) :
    Except Err Raw := do
  let p ← getXY pos
  let op ← getXY o.position
  .ok (pairRaw p speed heading ⟨op, o.speed, o.heading, o.timestamp⟩)

/-- The scan loop with exception propagation: the first failing pair aborts
the whole loop, discarding every accumulated SSM and alert. -/
def scanE (vid : String) (pos : List ℝ) (speed heading : ℝ) :
    List (String × EState) → List SSM × List Alert →
    Except Err (List SSM × List Alert)
  | [], acc => .ok acc
  | kv :: rest, acc =>
    if kv.1 = vid then scanE vid pos speed heading rest acc
    else
      match pairRawE pos speed heading kv.2 with
      | .error e => .error e
      | .ok raw =>
          scanE vid pos speed heading rest
            (acc.1 ++ [ssmOf kv.1 raw],
             acc.2 ++ alertsFor vid kv.1
               (riskVV raw.ttc raw.req_dec raw.delta_v) raw.ttc)

/-- `check_vehicle_risk` over raw payloads: the ego is upserted first (so
the store mutation survives an error), then the scan runs; an exception
yields an error response with no partial results. -/
def check_vehicle_riskE (vid : String) (pos : List ℝ) (speed heading ts : ℝ)
    (s : List (String × EState)) :
    Except Err VOut × List (String × EState) :=
  let s' := upsert s vid ⟨pos, speed, heading, ts⟩
  match scanE vid pos speed heading s' ([], []) with
  | .error e => (.error e, s')
  | .ok scanned =>
      (.ok ⟨vid, scanned.1,
        if scanned.2 = [] then [Alert.safe ts] else scanned.2⟩, s')

/-- A buffered VRU row (ssm_dash_noexcel_pet.py 287-295). -/
structure VruRec where
  ts : ℝ
  veh_id : String
  ped_id : String
  raw : VruRaw
  risk : ℝ
  action : String

/-- The mutable server state touched by the VRU endpoint of
ssm_dash_noexcel_pet.py: the entity map and the VRU ring buffer. -/
structure SrvState where
  vehicle_states : List (String × EState)
  vru_buf : List VruRec

/-- `vru_check_risk` over raw payloads and the shared server state
(ssm_dash_noexcel_pet.py 221-300): on success it appends one row to
`vru_buf`; on an exception it mutates nothing; it never touches
`vehicle_states`. -/
def vru_check_riskE (vidV : String) (vposL : List ℝ) (vs vh : ℝ)
    (vidP : String) (pposL : List ℝ) (ps ph : ℝ) (ts : ℝ) (s : SrvState) :
    Except Err VruResp × SrvState :=
  match getXY vposL with
  | .error e => (.error e, s)
  | .ok vpos =>
    match getXY pposL with
    | .error e => (.error e, s)
    | .ok ppos =>
      let r := vruRaw vpos vs vh ppos ps ph
      let risk := vruRiskScore r.ttc r.pet r.req_dec
      let acts := vruActionSeverity r.ttc r.pet r.req_dec
      let resp : VruResp :=
        ⟨vidV, vidP, round3 r.dist, round3 r.closing, round3 r.delta_v,
          r.ttc.map round3, r.pet.map round3, round3 r.req_dec,
          r.thw.map round3, round3 risk, acts.1, acts.2, ts⟩
      (.ok resp,
       ⟨s.vehicle_states,
        ringAppend BUF_SIZE s.vru_buf ⟨ts, vidV, vidP, r, risk, acts.1⟩⟩)

/-! ## Spec-side definitions (written from the claims' words, for the
refinement-style comparisons). -/

/-- `optLt o b`: the claim's `value < b` reading for a possibly-infinite
metric (an infinite metric satisfies no strict upper bound). -/
def optLt (o : Option ℝ) (b : ℝ) : Prop := ∃ t, o = some t ∧ t < b

/-- Claim C1's vehicle-vehicle risk formula:
`0.6·[ttc<1.0] + 0.3·[1.0≤ttc<2.5] + 0.2·[req_dec>5.0] + 0.2·[delta_v>5.0]`,
clamped to at most 1.0, with 0 from TTC when TTC is infinite. -/
def specRiskVV (ttc : Option ℝ) (req_dec delta_v : ℝ) : ℝ :=
  min 1 ((if optLt ttc 1 then 0.6 else 0)
    + (if (∃ t, ttc = some t ∧ 1 ≤ t ∧ t < 2.5) then 0.3 else 0)
    + (if req_dec > 5 then 0.2 else 0)
    + (if delta_v > 5 then 0.2 else 0))

/-- Claim C1's classification table: `risk ≥ 0.8` gives
`collision_imminent`/`emergency_brake`, `0.4 ≤ risk < 0.8` gives
`collision_warning`/`slow_down`, any lower risk gives no alert. -/
def specClassVV (vid oid : String) (risk : ℝ) (ttc : Option ℝ) : List Alert :=
  if risk ≥ 0.8 then
    [Alert.collision "collision_imminent" vid oid (round3 risk)
      "emergency_brake" (ttc.map round3)]
  else if 0.4 ≤ risk ∧ risk < 0.8 then
    [Alert.collision "collision_warning" vid oid (round3 risk)
      "slow_down" (ttc.map round3)]
  else []

/-- Claim C2's guard cascade, written from the claim's words. -/
def specVruAction (ttc pet : Option ℝ) (req_dec : ℝ) : String × String :=
  if optLt ttc 1 ∨ optLt pet 0.5 ∨ req_dec > 6 then ("emergency_brake", "high")
  else if optLt ttc 2.5 ∨ optLt pet 1.5 ∨ req_dec > 3 then
    ("slow_down", "medium")
  else ("keep", "low")

/-! ## Shared evaluation helpers -/

lemma hypot_x_zero (x : ℝ) : hypot x 0 = |x| := by
  rw [hypot, show x ^ 2 + 0 ^ 2 = x ^ 2 by ring, Real.sqrt_sq_eq_abs]

lemma hypot_sub_comm (a b c d : ℝ) :
    hypot (a - b) (c - d) = hypot (b - a) (d - c) := by
  rw [hypot, hypot]
  ring_nf

lemma radians_zero : radians 0 = 0 := by
  rw [radians]
  ring

lemma radians_pi : radians 180 = Real.pi := by
  rw [radians]
  ring

lemma velVec_heading_zero (s : ℝ) : velVec s 0 = (s, 0) := by
  rw [velVec, radians_zero]
  simp

lemma velVec_heading_180 (s : ℝ) : velVec s 180 = (-s, 0) := by
  rw [velVec, radians_pi]
  simp

lemma round3_int (x : ℝ) (n : ℤ) (h : 1000 * x = (n : ℝ)) :
    round3 x = (n : ℝ) / 1000 := by
  rw [round3, h, round_intCast]

lemma unit_vector_pos_x (x : ℝ) (h : 0 < x) : unit_vector x 0 = (1, 0) := by
  simp only [unit_vector, hypot_x_zero, abs_of_pos h]
  rw [if_neg h.ne']
  rw [div_self h.ne']
  simp

lemma unit_vector_neg_x (x : ℝ) (h : x < 0) : unit_vector x 0 = (-1, 0) := by
  simp only [unit_vector, hypot_x_zero, abs_of_neg h]
  rw [if_neg (by linarith : -x ≠ (0 : ℝ))]
  rw [show x / -x = -1 by
    rw [div_neg, div_self h.ne]
  ]
  simp

lemma vruActionSeverity_eq_spec (ttc pet : Option ℝ) (rd : ℝ) :
    vruActionSeverity ttc pet rd = specVruAction ttc pet rd := by
  cases ttc <;> cases pet <;>
    simp [vruActionSeverity, specVruAction, optLt]

/-! ## Claim C3 and C9 theorems -/

/-- Claim C3: `compute_ttc` is infinite (`none`) exactly when the closing
speed or the distance is non-positive, and is `distance / closing_speed`
otherwise. -/
theorem C3_ttc_spec (d c : ℝ) :
    (compute_ttc d c = none ↔ c ≤ 0 ∨ d ≤ 0) ∧
    (0 < c → 0 < d → compute_ttc d c = some (d / c)) := by
  constructor
  · constructor
    · intro h
      by_contra hcon
      push_neg at hcon
      rw [compute_ttc, if_neg] at h
      · exact Option.some_ne_none _ h
      · push_neg
        exact ⟨hcon.1, hcon.2⟩
    · intro h
      rw [compute_ttc, if_pos h]
  · intro hc hd
    rw [compute_ttc, if_neg]
    push_neg
    exact ⟨hc, hd⟩

/-- Witness for C3 at a concrete input: `compute_ttc 6 2 = some 3`. -/
theorem C3_ttc_spec_witness : compute_ttc 6 2 = some 3 := by
  have h := (C3_ttc_spec 6 2).2 (by norm_num) (by norm_num)
  rw [h]
  norm_num

/-- Claim C9: `required_deceleration` equals
`rel² / (2 · max (distance - cushion) 1e-3)` for all real inputs, its
denominator is strictly positive (so no division by zero occurs, and the
function is total), and the result is always non-negative. -/
theorem C9_required_deceleration_total_nonneg (v d c : ℝ) :
    required_deceleration v d c = v ^ 2 / (2 * max (d - c) (1 / 1000)) ∧
    0 < 2 * max (d - c) (1 / 1000) ∧
    0 ≤ required_deceleration v d c := by
  refine ⟨rfl, ?_, ?_⟩
  · have h : (0 : ℝ) < 1 / 1000 := by norm_num
    have := le_max_right (d - c) (1 / 1000)
    nlinarith
  · apply div_nonneg (sq_nonneg v)
    have h : (0 : ℝ) < 1 / 1000 := by norm_num
    have := le_max_right (d - c) (1 / 1000)
    nlinarith

/-! ## More shared helpers -/

lemma project_pos_x (d w1 w2 : ℝ) (hd : 0 < d) :
    project_speed_along_line (d, 0) (w1, w2) = -w1 := by
  simp only [project_speed_along_line]
  rw [unit_vector_pos_x d hd]
  norm_num

lemma project_neg_x (d w1 w2 : ℝ) (hd : d < 0) :
    project_speed_along_line (d, 0) (w1, w2) = w1 := by
  simp only [project_speed_along_line]
  rw [unit_vector_neg_x d hd]
  norm_num

lemma project_neg_neg (p v : ℝ × ℝ) :
    project_speed_along_line (-p.1, -p.2) (-v.1, -v.2)
      = project_speed_along_line p v := by
  simp only [project_speed_along_line, unit_vector, hypot, neg_sq]
  by_cases h : Real.sqrt (p.1 ^ 2 + p.2 ^ 2) = 0
  · simp [h]
  · rw [if_neg h, if_neg h]
    simp only
    ring

/-! ## Claim C2 -/

/-- Claim C2: for every `check_vru` call, the recommended action and
severity are exactly the guard cascade on the computed TTC, PET and
required deceleration: `ttc<1.0 ∨ pet<0.5 ∨ req_dec>6.0` gives
`emergency_brake`/`high`; otherwise `ttc<2.5 ∨ pet<1.5 ∨ req_dec>3.0`
gives `slow_down`/`medium`; otherwise `keep`/`low`. -/
theorem C2_vru_guard_cascade (vidV : String) (vpos : ℝ × ℝ) (vs vh : ℝ)
    (vidP : String) (ppos : ℝ × ℝ) (ps ph ts : ℝ) :
    ((vru_check_risk vidV vpos vs vh vidP ppos ps ph ts).recommended_action,
     (vru_check_risk vidV vpos vs vh vidP ppos ps ph ts).severity)
      = specVruAction (vruRaw vpos vs vh ppos ps ph).ttc
          (vruRaw vpos vs vh ppos ps ph).pet
          (vruRaw vpos vs vh ppos ps ph).req_dec := by
  rw [← vruActionSeverity_eq_spec]
  rfl

/-! ## Claim C4 -/

/-- Claim C4 (amended): distance is symmetric in the pair exactly, and the
closing speed is also *symmetric* under swapping ego and other —
`closing_speed(A→B) = closing_speed(B→A)` — because both the relative
position and the relative velocity flip sign, and the two sign flips
cancel in the projection.  The claimed antisymmetry does not hold. -/
theorem C4_distance_symm_closing_symm (pA vA pB vB : ℝ × ℝ) :
    euclidean_distance pA pB = euclidean_distance pB pA ∧
    closingSpeed pA vA pB vB = closingSpeed pB vB pA vA := by
  constructor
  · rw [euclidean_distance, euclidean_distance, hypot_sub_comm]
  · have h := project_neg_neg (pB.1 - pA.1, pB.2 - pA.2)
      (vA.1 - vB.1, vA.2 - vB.2)
    rw [closingSpeed, closingSpeed]
    rw [show pA.1 - pB.1 = -(pB.1 - pA.1) by ring,
        show pA.2 - pB.2 = -(pB.2 - pA.2) by ring,
        show vB.1 - vA.1 = -(vA.1 - vB.1) by ring,
        show vB.2 - vA.2 = -(vA.2 - vB.2) by ring]
    exact h.symm

/-- Counterexample to claim C4 as stated: with A at the origin moving at
`(1,0)` toward a stationary B at `(1,0)`, both orientations of the pair
produce closing speed `-1`, so `closing_speed(A→B) ≠ -closing_speed(B→A)`.
(The sign is itself notable: the source's projection is negative for an
approaching pair, despite its docstring.) -/
theorem C4_closing_antisym_counterexample :
    closingSpeed (0, 0) (1, 0) (1, 0) (0, 0) = -1 ∧
    closingSpeed (1, 0) (0, 0) (0, 0) (1, 0) = -1 ∧
    ¬(closingSpeed (0, 0) (1, 0) (1, 0) (0, 0)
        = -closingSpeed (1, 0) (0, 0) (0, 0) (1, 0)) := by
  have h1 : closingSpeed ((0 : ℝ), (0 : ℝ)) (1, 0) (1, 0) (0, 0) = -1 := by
    show project_speed_along_line (1 - 0, 0 - 0) (1 - 0, 0 - 0) = -1
    norm_num
    rw [project_pos_x 1 1 0 one_pos]
  have h2 : closingSpeed ((1 : ℝ), (0 : ℝ)) (0, 0) (0, 0) (1, 0) = -1 := by
    show project_speed_along_line (0 - 1, 0 - 0) (0 - 1, 0 - 0) = -1
    norm_num
    rw [project_neg_x (-1) (-1) 0 (by norm_num)]
  refine ⟨h1, h2, ?_⟩
  rw [h1, h2]
  norm_num

/-! ## Claim C7 -/

lemma ringAppend_eq_drop {α : Type} (k : ℕ) (buf : List α) (x : α) :
    ringAppend k buf x = (buf ++ [x]).drop ((buf ++ [x]).length - k) := by
  rw [ringAppend]
  by_cases h : buf.length < k
  · rw [if_pos h, Nat.sub_eq_zero_of_le (by simp; omega), List.drop_zero]
  · rw [if_neg h]
    congr 1
    simp

lemma ringAppend_drop {α : Type} (k : ℕ) (xs : List α) (x : α) :
    ringAppend k (xs.drop (xs.length - k)) x
      = (xs ++ [x]).drop ((xs ++ [x]).length - k) := by
  rw [ringAppend_eq_drop]
  simp only [List.length_append, List.length_drop, List.length_cons,
    List.length_nil]
  by_cases h : xs.length ≤ k
  · rw [Nat.sub_eq_zero_of_le h, List.drop_zero]
    simp
  · push_neg at h
    by_cases hk : k = 0
    · subst hk
      simp [List.drop_length]
    · have h1 : xs.length - (xs.length - k) + (0 + 1) - k = 1 := by omega
      rw [h1]
      rw [List.drop_append_of_le_length
        (by rw [List.length_drop]; omega : 1 ≤ (xs.drop (xs.length - k)).length)]
      rw [List.drop_drop]
      rw [List.drop_append_of_le_length (by omega : xs.length + (0 + 1) - k ≤ xs.length)]
      congr 2
      omega

lemma foldl_ringAppend {α : Type} (k : ℕ) (xs : List α) :
    List.foldl (ringAppend k) [] xs = xs.drop (xs.length - k) := by
  induction xs using List.reverseRecOn with
  | nil => simp
  | append_singleton xs x ih =>
    rw [List.foldl_append, List.foldl_cons, List.foldl_nil, ih,
      ringAppend_drop]

/-- Claim C7: the telemetry ring buffers have fixed capacity
(`BUF_SIZE = 20000` by default) and FIFO eviction: after appending the
elements of `xs` into an initially empty capacity-`k` buffer, it holds
exactly the last `k` elements in arrival order; in particular a
capacity-3 buffer receiving 5 appends retains exactly the last 3. -/
theorem C7_ring_buffer_fifo :
    BUF_SIZE = 20000 ∧
    (∀ (α : Type) (k : ℕ) (xs : List α),
      List.foldl (ringAppend k) [] xs = xs.drop (xs.length - k)) ∧
    List.foldl (ringAppend 3) ([] : List ℕ) [1, 2, 3, 4, 5] = [3, 4, 5] := by
  refine ⟨rfl, fun α k xs => foldl_ringAppend k xs, ?_⟩
  decide

/-! ## Claim C1 -/

lemma ttcRiskTerm_eq (ttc : Option ℝ) :
    ttcRiskTerm ttc
      = (if optLt ttc 1 then 0.6 else 0)
        + (if (∃ t, ttc = some t ∧ 1 ≤ t ∧ t < 2.5) then 0.3 else 0) := by
  cases ttc with
  | none =>
    simp [ttcRiskTerm, optLt]
  | some t =>
    simp only [ttcRiskTerm, optLt, Option.some.injEq]
    by_cases h1 : t < 1
    · rw [if_pos h1, if_pos ⟨t, rfl, h1⟩,
        if_neg (show ¬∃ x, t = x ∧ 1 ≤ x ∧ x < 2.5 by
          rintro ⟨x, rfl, hle, hlt⟩
          linarith)]
      norm_num
    · rw [if_neg h1]
      by_cases h2 : t < 2.5
      · rw [if_pos h2,
          if_neg (show ¬∃ x, t = x ∧ x < 1 by
            rintro ⟨x, rfl, hx⟩
            exact h1 hx),
          if_pos (show ∃ x, t = x ∧ 1 ≤ x ∧ x < 2.5 from
            ⟨t, rfl, not_lt.mp h1, h2⟩)]
        norm_num
      · rw [if_neg h2,
          if_neg (show ¬∃ x, t = x ∧ x < 1 by
            rintro ⟨x, rfl, hx⟩
            exact h1 hx),
          if_neg (show ¬∃ x, t = x ∧ 1 ≤ x ∧ x < 2.5 by
            rintro ⟨x, rfl, hle, hlt⟩
            exact h2 hlt)]
        norm_num

lemma petRiskTerm_eq (c : ℝ) (pet : Option ℝ) :
    petRiskTerm c pet = if optLt pet 1 then c else 0 := by
  cases pet <;> simp [petRiskTerm, optLt]

lemma riskVV_eq_spec (ttc : Option ℝ) (rd dv : ℝ) :
    riskVV ttc rd dv = specRiskVV ttc rd dv := by
  rw [riskVV, specRiskVV, ttcRiskTerm_eq]

lemma riskVVPet_eq (ttc : Option ℝ) (rd dv : ℝ) (pet : Option ℝ) :
    riskVVPet ttc rd dv pet
      = min 1 ((if optLt ttc 1 then 0.6 else 0)
        + (if (∃ t, ttc = some t ∧ 1 ≤ t ∧ t < 2.5) then 0.3 else 0)
        + (if rd > 5 then 0.2 else 0) + (if dv > 5 then 0.2 else 0)
        + (if optLt pet 1 then 0.2 else 0)) := by
  rw [riskVVPet, ttcRiskTerm_eq, petRiskTerm_eq]

lemma alertsFor_eq_spec (vid oid : String) (risk : ℝ) (ttc : Option ℝ) :
    alertsFor vid oid risk ttc = specClassVV vid oid risk ttc := by
  rw [alertsFor, specClassVV]
  by_cases h8 : risk ≥ 0.8
  · rw [if_pos h8, if_pos h8]
  · rw [if_neg h8, if_neg h8]
    by_cases h4 : risk ≥ 0.4
    · rw [if_pos h4, if_pos ⟨h4, lt_of_not_ge h8⟩]
    · rw [if_neg h4, if_neg]
      rintro ⟨hh, _⟩
      exact h4 hh

lemma foldl_vvStep_alerts_nil (vid : String) (pos : ℝ × ℝ) (sp hd : ℝ)
    (l : List (String × VState)) (acc : List SSM × List Alert)
    (h : ∀ kv ∈ l, kv.1 ≠ vid →
      riskVV (pairRaw pos sp hd kv.2).ttc (pairRaw pos sp hd kv.2).req_dec
        (pairRaw pos sp hd kv.2).delta_v < 0.4) :
    (l.foldl (vvStep vid pos sp hd) acc).2 = acc.2 := by
  induction l generalizing acc with
  | nil => rfl
  | cons kv rest ih =>
    rw [List.foldl_cons]
    rw [ih _ (fun kv' h' hne => h kv' (List.mem_cons_of_mem _ h') hne)]
    by_cases hk : kv.1 = vid
    · simp only [vvStep, if_pos hk]
    · have hr := h kv (List.mem_cons_self _ _) hk
      simp only [vvStep, if_neg hk]
      rw [alertsFor, if_neg (by intro hc; linarith), if_neg (by intro hc; linarith)]
      simp

/-- Claim C1 (amended): for every vehicle-vehicle pair, the risk score of
the two base variants equals exactly the claimed formula
`0.6·[ttc<1] + 0.3·[1≤ttc<2.5] + 0.2·[req_dec>5] + 0.2·[delta_v>5]`
clamped to 1 (first conjunct); the `ssm_dash_noexcel_pet.py` variant adds
one further `0.2·[pet<1]` term before clamping (second conjunct, the
amendment); the classification is exactly the claimed table —
`risk ≥ 0.8` gives `collision_imminent`/`emergency_brake`,
`0.4 ≤ risk < 0.8` gives `collision_warning`/`slow_down`, lower risk no
alert (third conjunct); and when every scanned pair has risk below 0.4 the
returned alert list is exactly the single synthetic safe sentinel (fourth
conjunct). -/
theorem C1_vv_risk_classification :
    (∀ (ttc : Option ℝ) (rd dv : ℝ), riskVV ttc rd dv = specRiskVV ttc rd dv) ∧
    (∀ (ttc : Option ℝ) (rd dv : ℝ) (pet : Option ℝ),
      riskVVPet ttc rd dv pet
        = min 1 ((if optLt ttc 1 then 0.6 else 0)
          + (if (∃ t, ttc = some t ∧ 1 ≤ t ∧ t < 2.5) then 0.3 else 0)
          + (if rd > 5 then 0.2 else 0) + (if dv > 5 then 0.2 else 0)
          + (if optLt pet 1 then 0.2 else 0))) ∧
    (∀ (vid oid : String) (risk : ℝ) (ttc : Option ℝ),
      alertsFor vid oid risk ttc = specClassVV vid oid risk ttc) ∧
    (∀ (vid : String) (pos : ℝ × ℝ) (sp hd ts : ℝ) (s : Store),
      (∀ kv ∈ upsert s vid ⟨pos, sp, hd, ts⟩, kv.1 ≠ vid →
        riskVV (pairRaw pos sp hd kv.2).ttc (pairRaw pos sp hd kv.2).req_dec
          (pairRaw pos sp hd kv.2).delta_v < 0.4) →
      (check_vehicle_risk vid pos sp hd ts s).1.alerts = [Alert.safe ts]) := by
  refine ⟨riskVV_eq_spec, riskVVPet_eq, alertsFor_eq_spec, ?_⟩
  intro vid pos sp hd ts s h
  have h2 := foldl_vvStep_alerts_nil vid pos sp hd
    (upsert s vid ⟨pos, sp, hd, ts⟩) ([], []) h
  simp only [check_vehicle_risk]
  rw [h2]
  simp

/-- Witness for C1's sentinel clause at a concrete input: a first-ever call
(empty store) scans nothing, so every scanned pair vacuously has low risk
and the result is exactly the safe sentinel. -/
theorem C1_vv_risk_classification_witness :
    (check_vehicle_risk "ego" (0, 0) 0 0 0 []).1.alerts = [Alert.safe 0] := by
  apply C1_vv_risk_classification.2.2.2
  intro kv hkv hne
  simp [upsert] at hkv
  rw [hkv] at hne
  simp at hne

/-- Counterexample to claim C1 as stated: in the `ssm_dash_noexcel_pet.py`
variant of `check_vehicle`, the pair (ego "A" at the origin, speed 1,
heading 180°; other "B" at (2,0), stationary) has `ttc = 2`,
`req_dec = 1/4`, `delta_v = 1`, so the claimed formula gives risk `0.3` and
hence no alert (and, as the only pair, a safe sentinel) — but the code's
PET proxy is `0 < 1`, adds `0.2`, and the call returns a
`collision_warning` alert with risk score `0.5`. -/
theorem C1_pet_variant_counterexample :
    (check_vehicle_risk_pet "A" (0, 0) 1 180 7
        [("B", ⟨(2, 0), 0, 0, 0⟩)]).1.alerts
      = [Alert.collision "collision_warning" "A" "B" 0.5 "slow_down" (some 2)] ∧
    specRiskVV (some 2) (1 / 4) 1 = 0.3 ∧
    ¬((0.3 : ℝ) ≥ 0.4) := by
  have hdist : euclidean_distance (0 : ℝ × ℝ) (2, 0) = 2 := by
    show hypot ((0 : ℝ) - 2) ((0 : ℝ) - 0) = 2
    rw [show (0 : ℝ) - 2 = -2 by norm_num, show (0 : ℝ) - 0 = 0 by norm_num,
      hypot_x_zero, abs_neg, abs_of_nonneg (by norm_num : (0 : ℝ) ≤ 2)]
  have hproj : project_speed_along_line ((2 : ℝ), 0) (-1, 0) = 1 := by
    rw [project_pos_x 2 (-1) 0 (by norm_num)]
    norm_num
  have httc : compute_ttc 2 1 = some 2 := by
    rw [compute_ttc, if_neg (by norm_num), show (2 : ℝ) / 1 = 2 by norm_num]
  have hdv : |hypot ((-1) : ℝ) 0| = 1 := by
    rw [hypot_x_zero, abs_abs, abs_neg, abs_one]
  have hreq : required_deceleration 1 2 0 = 1 / 4 := by
    rw [required_deceleration, show (2 : ℝ) - 0 = 2 by norm_num,
      max_eq_left (by norm_num : (1 : ℝ) / 1000 ≤ 2)]
    norm_num
  have hthw : time_headway 2 1 = some 2 := by
    rw [time_headway, if_neg (by norm_num : ¬(1 : ℝ) ≤ 0),
      show (2 : ℝ) / 1 = 2 by norm_num]
  have hraw : pairRaw ((0 : ℝ), (0 : ℝ)) 1 180 ⟨(2, 0), 0, 0, 0⟩
      = ⟨2, 1, 1, some 2, 1 / 4, some 2⟩ := by
    simp only [pairRaw, velVec_heading_180, velVec_heading_zero]
    norm_num [hdist, hproj, httc, hdv, hreq, hthw, Raw.mk.injEq]
  have hpet : petProxyVV 2 1 1 = some 0 := by
    rw [petProxyVV,
      if_pos (⟨by norm_num, by norm_num⟩ : (1 : ℝ) > 0 ∧ (1 : ℝ) > 0),
      max_eq_left (by norm_num : (1 : ℝ) / 1000000 ≤ 1)]
    norm_num
  have hrisk : riskVVPet (some 2) (1 / 4) 1 (some 0) = 0.5 := by
    rw [riskVVPet,
      show ttcRiskTerm (some 2) = 0.3 by norm_num [ttcRiskTerm],
      show petRiskTerm 0.2 (some 0) = 0.2 by norm_num [petRiskTerm],
      if_neg (by norm_num : ¬(1 : ℝ) / 4 > 5),
      if_neg (by norm_num : ¬(1 : ℝ) > 5),
      show (0.3 : ℝ) + 0 + 0 + 0.2 = 0.5 by norm_num]
    exact min_eq_right (by norm_num)
  have hr05 : round3 0.5 = 0.5 := by
    rw [round3_int 0.5 500 (by norm_num)]
    norm_num
  have hr2 : round3 2 = 2 := by
    rw [round3_int 2 2000 (by norm_num)]
    norm_num
  have halert : alertsFor "A" "B" 0.5 (some 2)
      = [Alert.collision "collision_warning" "A" "B" 0.5 "slow_down" (some 2)] := by
    rw [alertsFor, if_neg (by norm_num : ¬(0.5 : ℝ) ≥ 0.8),
      if_pos (by norm_num : (0.5 : ℝ) ≥ 0.4), hr05]
    simp [hr2]
  have hne : ("B" : String) ≠ "A" := by decide
  have hstepB : ∀ acc : List SSMPet × List Alert,
      vvStepPet "A" (0, 0) 1 180 acc ("B", ⟨(2, 0), 0, 0, 0⟩)
        = (acc.1 ++ [⟨"B", round3 2, round3 1, round3 1, some (round3 2),
              round3 (1 / 4), some (round3 2), some (round3 0)⟩],
           acc.2 ++ [Alert.collision "collision_warning" "A" "B" 0.5
              "slow_down" (some 2)]) := by
    intro acc
    simp only [vvStepPet, if_neg hne, hraw, hpet, hrisk, halert]
    simp [Option.map]
  have hstepA : ∀ acc : List SSMPet × List Alert,
      vvStepPet "A" (0, 0) 1 180 acc ("A", ⟨(0, 0), 1, 180, 7⟩) = acc := by
    intro acc
    simp [vvStepPet]
  have hup : upsert [("B", (⟨(2, 0), 0, 0, 0⟩ : VState))] "A"
      ⟨(0, 0), 1, 180, 7⟩
      = [("B", ⟨(2, 0), 0, 0, 0⟩), ("A", ⟨(0, 0), 1, 180, 7⟩)] := by
    rw [upsert, if_neg]
    · rfl
    · decide
  refine ⟨?_, ?_, by norm_num⟩
  · simp only [check_vehicle_risk_pet, hup, List.foldl_cons, List.foldl_nil,
      hstepB ([], []), hstepA]
    simp
  · rw [specRiskVV,
      if_neg (show ¬optLt (some 2) 1 by
        rintro ⟨x, hx, hlt⟩
        injection hx with hx
        rw [← hx] at hlt
        linarith),
      if_pos (show ∃ t, (some 2 : Option ℝ) = some t ∧ 1 ≤ t ∧ t < 2.5 from
        ⟨2, rfl, by norm_num, by norm_num⟩),
      if_neg (by norm_num : ¬(1 : ℝ) / 4 > 5),
      if_neg (by norm_num : ¬(1 : ℝ) > 5),
      show (0 : ℝ) + 0.3 + 0 + 0 = 0.3 by norm_num]
    exact min_eq_right (by norm_num)

/-! ## Claim C8 -/

/-- Claim C8: the VRU recommended action does not depend on the additive
risk score — the concrete input (vehicle at the origin moving at 10 m/s
straight toward a stationary pedestrian 5 m ahead) yields infinite TTC and
PET under the code's sign convention, required deceleration 10 > 6, hence
`emergency_brake`, while the risk score is only 0.2. -/
theorem C8_vru_action_independent_of_risk :
    ∃ (vpos : ℝ × ℝ) (vs vh : ℝ) (ppos : ℝ × ℝ) (ps ph ts : ℝ),
      (vru_check_risk "veh_1" vpos vs vh "ped_1" ppos ps ph ts).recommended_action
          = "emergency_brake" ∧
      (vru_check_risk "veh_1" vpos vs vh "ped_1" ppos ps ph ts).risk_score ≤ 0.2 ∧
      (vru_check_risk "veh_1" vpos vs vh "ped_1" ppos ps ph ts).ttc = none ∧
      (vru_check_risk "veh_1" vpos vs vh "ped_1" ppos ps ph ts).pet = none ∧
      6 < (vru_check_risk "veh_1" vpos vs vh "ped_1" ppos ps ph
            ts).required_deceleration := by
  have hd5 : euclidean_distance (0 : ℝ × ℝ) (5, 0) = 5 := by
    show hypot ((0 : ℝ) - 5) ((0 : ℝ) - 0) = 5
    rw [show (0 : ℝ) - 5 = -5 by norm_num, show (0 : ℝ) - 0 = 0 by norm_num,
      hypot_x_zero, abs_neg, abs_of_nonneg (by norm_num : (0 : ℝ) ≤ 5)]
  have hproj5 : project_speed_along_line ((5 : ℝ), 0) (10, 0) = -10 := by
    rw [project_pos_x 5 10 0 (by norm_num)]
  have httc5 : compute_ttc 5 (-10) = none := by
    rw [compute_ttc, if_pos (Or.inl (by norm_num : (-10 : ℝ) ≤ 0))]
  have hdv10 : |hypot (10 : ℝ) 0| = 10 := by
    rw [hypot_x_zero, abs_abs, abs_of_nonneg (by norm_num : (0 : ℝ) ≤ 10)]
  have hreq10 : required_deceleration 10 5 0 = 10 := by
    rw [required_deceleration, show (5 : ℝ) - 0 = 5 by norm_num,
      max_eq_left (by norm_num : (1 : ℝ) / 1000 ≤ 5)]
    norm_num
  have hthw5 : time_headway 5 10 = some (1 / 2) := by
    rw [time_headway, if_neg (by norm_num : ¬(10 : ℝ) ≤ 0),
      show (5 : ℝ) / 10 = 1 / 2 by norm_num]
  have hvraw : vruRaw ((0 : ℝ), (0 : ℝ)) 10 0 ((5 : ℝ), (0 : ℝ)) 0 0
      = ⟨5, -10, 10, none, none, 10, some (1 / 2)⟩ := by
    simp only [vruRaw, velVec_heading_zero]
    norm_num [hd5, hproj5, httc5, hdv10, hreq10, hthw5, VruRaw.mk.injEq]
  have hact : vruActionSeverity none none 10 = ("emergency_brake", "high") := by
    rw [vruActionSeverity, if_pos (Or.inr (Or.inr (by norm_num : (10 : ℝ) > 6)))]
  have hrisk02 : vruRiskScore none none 10 = 0.2 := by
    rw [vruRiskScore, show ttcRiskTerm none = 0 from rfl,
      show petRiskTerm 0.3 none = 0 from rfl,
      if_pos (by norm_num : (10 : ℝ) > 5),
      show (0 : ℝ) + 0 + 0.2 = 0.2 by norm_num]
    exact min_eq_right (by norm_num)
  have hr02 : round3 0.2 = 0.2 := by
    rw [round3_int 0.2 200 (by norm_num)]
    norm_num
  have hr10 : round3 10 = 10 := by
    rw [round3_int 10 10000 (by norm_num)]
    norm_num
  refine ⟨(0, 0), 10, 0, (5, 0), 0, 0, 3, ?_, ?_, ?_, ?_, ?_⟩
  · simp only [vru_check_risk, hvraw, hact]
  · simp only [vru_check_risk, hvraw, hrisk02, hr02]
    norm_num
  · simp only [vru_check_risk, hvraw]
    rfl
  · simp only [vru_check_risk, hvraw]
    rfl
  · simp only [vru_check_risk, hvraw, hr10]
    norm_num

/-! ## Claim C5 -/

lemma scanE_ok_iff (vid : String) (pos : List ℝ) (sp hd : ℝ) :
    ∀ (l : List (String × EState)) (acc : List SSM × List Alert),
      exOk (scanE vid pos sp hd l acc) = true
        ↔ ∀ kv ∈ l, kv.1 ≠ vid → exOk (pairRawE pos sp hd kv.2) = true := by
  intro l
  induction l with
  | nil =>
    intro acc
    simp [scanE, exOk]
  | cons kv rest ih =>
    intro acc
    by_cases hk : kv.1 = vid
    · simp only [scanE]
      rw [if_pos hk, ih acc]
      constructor
      · intro h kv' hm hne
        rcases List.mem_cons.mp hm with rfl | hm'
        · exact absurd hk hne
        · exact h kv' hm' hne
      · intro h kv' hm' hne
        exact h kv' (List.mem_cons_of_mem _ hm') hne
    · simp only [scanE]
      rw [if_neg hk]
      rcases hp : pairRawE pos sp hd kv.2 with e | raw
      · simp only
        constructor
        · intro h
          simp [exOk] at h
        · intro h
          have hc := h kv (List.mem_cons_self _ _) hk
          rw [hp] at hc
          simp [exOk] at hc
      · simp only
        rw [ih _]
        constructor
        · intro h kv' hm hne
          rcases List.mem_cons.mp hm with rfl | hm'
          · rw [hp]
            simp [exOk]
          · exact h kv' hm' hne
        · intro h kv' hm' hne
          exact h kv' (List.mem_cons_of_mem _ hm') hne

/-- Claim C5 (amended): the scan does NOT tolerate per-pair failures — the
response of `check_vehicle_risk` is a success exactly when *every*
scanned pair's computation succeeds; a failure on any one pair aborts the
whole scan and the handler returns an error response carrying no partial
results (only the ego upsert survives). -/
theorem C5_scan_aborts_amended (vid : String) (pos : List ℝ)
    (speed heading ts : ℝ) (s : List (String × EState)) :
    exOk (check_vehicle_riskE vid pos speed heading ts s).1 = true
      ↔ ∀ kv ∈ upsert s vid ⟨pos, speed, heading, ts⟩, kv.1 ≠ vid →
          exOk (pairRawE pos speed heading kv.2) = true := by
  rw [← scanE_ok_iff vid pos speed heading
    (upsert s vid ⟨pos, speed, heading, ts⟩) ([], [])]
  rcases hs : scanE vid pos speed heading
      (upsert s vid ⟨pos, speed, heading, ts⟩) ([], []) with e | sc <;>
    simp [check_vehicle_riskE, hs, exOk]

/-- Witness for C5 (amended) at a concrete input: a first-ever call with an
empty store scans no pairs, so the call succeeds. -/
theorem C5_scan_aborts_witness :
    exOk (check_vehicle_riskE "A" [0, 0] 0 0 0 []).1 = true := by
  rw [C5_scan_aborts_amended]
  intro kv hkv hne
  simp [upsert] at hkv
  rw [hkv] at hne
  simp at hne

/-- Counterexample to claim C5 as stated: with a store holding a good
entity "B" and an entity "C" whose stored `position` is the malformed
one-element list `[1]` (which an earlier `check_vehicle` call stores
unvalidated), the scan for ego "A" raises on the (A, C) pair and the whole
call returns an error — even though the (A, B) pair's SSM computation
succeeds, its record and alert are not returned. -/
theorem C5_no_partial_results_counterexample :
    (check_vehicle_riskE "A" [0, 0] 1 180 5
        [("B", ⟨[2, 0], 0, 0, 0⟩), ("C", ⟨[1], 0, 0, 0⟩)]).1
      = Except.error Err.indexError ∧
    exOk (pairRawE [0, 0] 1 180 ⟨[2, 0], 0, 0, 0⟩) = true := by
  constructor
  · rfl
  · rfl

/-! ## Claim C6 -/

lemma filter_map_replace {β : Type} (k : String) (v : β)
    (s : List (String × β)) :
    (s.map (fun kv => if kv.1 = k then (k, v) else kv)).filter
        (fun kv => !(kv.1 == k))
      = s.filter (fun kv => !(kv.1 == k)) := by
  induction s with
  | nil => rfl
  | cons kv rest ih =>
    simp only [List.map_cons, List.filter_cons]
    by_cases hk : kv.1 = k
    · rw [if_pos hk]
      simp [hk, ih]
    · rw [if_neg hk]
      simp [hk, ih]

lemma filter_upsert {β : Type} (s : List (String × β)) (k : String) (v : β) :
    (upsert s k v).filter (fun kv => !(kv.1 == k))
      = s.filter (fun kv => !(kv.1 == k)) := by
  rw [upsert]
  by_cases h : s.any (fun kv => kv.1 == k)
  · rw [if_pos h]
    exact filter_map_replace k v s
  · rw [if_neg h, List.filter_append]
    simp

lemma foldl_vvStep_filter (vid : String) (pos : ℝ × ℝ) (sp hd : ℝ)
    (l : List (String × VState)) (acc : List SSM × List Alert) :
    l.foldl (vvStep vid pos sp hd) acc
      = (l.filter (fun kv => !(kv.1 == vid))).foldl (vvStep vid pos sp hd) acc := by
  induction l generalizing acc with
  | nil => rfl
  | cons kv rest ih =>
    rw [List.foldl_cons, List.filter_cons]
    by_cases hk : kv.1 = vid
    · have hstep : vvStep vid pos sp hd acc kv = acc := by
        simp [vvStep, hk]
      have hb : (!(kv.1 == vid)) = false := by
        simp [hk]
      rw [hstep, ih, hb]
      simp
    · have hb : (!(kv.1 == vid)) = true := by
        simp [hk]
      rw [hb]
      simp only [if_true]
      rw [List.foldl_cons, ih]

/-- Claim C6 (amended): two identical `check_vehicle` calls for the same
ego with an unchanged store produce identical `vehicle_id` and SSM lists,
and identical alert lists *except in the safe-sentinel case*: the sentinel
embeds the call's wall-clock timestamp, so when no alert fires the two
sentinels differ in their timestamp field (they agree exactly when the two
calls read the same clock value). -/
theorem C6_idempotence_modulo_sentinel (vid : String) (pos : ℝ × ℝ)
    (speed heading ts1 ts2 : ℝ) (s0 : Store) :
    ((check_vehicle_risk vid pos speed heading ts2
        (check_vehicle_risk vid pos speed heading ts1 s0).2).1.vehicle_id
      = (check_vehicle_risk vid pos speed heading ts1 s0).1.vehicle_id) ∧
    ((check_vehicle_risk vid pos speed heading ts2
        (check_vehicle_risk vid pos speed heading ts1 s0).2).1.ssm
      = (check_vehicle_risk vid pos speed heading ts1 s0).1.ssm) ∧
    ((check_vehicle_risk vid pos speed heading ts2
        (check_vehicle_risk vid pos speed heading ts1 s0).2).1.alerts
        = (check_vehicle_risk vid pos speed heading ts1 s0).1.alerts
      ∨ ((check_vehicle_risk vid pos speed heading ts1 s0).1.alerts
            = [Alert.safe ts1]
          ∧ (check_vehicle_risk vid pos speed heading ts2
              (check_vehicle_risk vid pos speed heading ts1 s0).2).1.alerts
            = [Alert.safe ts2])) := by
  have hF : (upsert (upsert s0 vid ⟨pos, speed, heading, ts1⟩) vid
        ⟨pos, speed, heading, ts2⟩).foldl (vvStep vid pos speed heading) ([], [])
      = (upsert s0 vid ⟨pos, speed, heading, ts1⟩).foldl
          (vvStep vid pos speed heading) ([], []) := by
    rw [foldl_vvStep_filter, filter_upsert,
      ← foldl_vvStep_filter]
  simp only [check_vehicle_risk]
  rw [hF]
  refine ⟨trivial, rfl, ?_⟩
  by_cases hnil : ((upsert s0 vid ⟨pos, speed, heading, ts1⟩).foldl
      (vvStep vid pos speed heading) ([], [])).2 = []
  · right
    rw [if_pos hnil, if_pos hnil]
    exact ⟨rfl, rfl⟩
  · left
    rw [if_neg hnil, if_neg hnil]

/-- Counterexample to claim C6 as stated: two identical calls (empty store,
same ego, same kinematics) at wall-clock times 0 and 1 both return the
safe sentinel, but the two sentinel alerts differ in their timestamp
field, so the alert lists are not identical. -/
theorem C6_sentinel_timestamp_counterexample :
    (check_vehicle_risk "A" (0, 0) 0 0 0 []).1.alerts = [Alert.safe 0] ∧
    (check_vehicle_risk "A" (0, 0) 0 0 1
        (check_vehicle_risk "A" (0, 0) 0 0 0 []).2).1.alerts
      = [Alert.safe 1] ∧
    Alert.safe 0 ≠ Alert.safe 1 := by
  refine ⟨?_, ?_, ?_⟩
  · simp [check_vehicle_risk, upsert, vvStep]
  · simp [check_vehicle_risk, upsert, vvStep]
  · intro h
    rw [Alert.safe.injEq] at h
    norm_num at h

/-! ## Claim C10 -/

/-- Claim C10: `check_vru` never modifies the entity state store — for
every input (well-formed or not) the `vehicle_states` map is unchanged —
and it appends at most one record to the VRU telemetry buffer. -/
theorem C10_vru_preserves_vehicle_states (vidV : String) (vposL : List ℝ)
    (vs vh : ℝ) (vidP : String) (pposL : List ℝ) (ps ph ts : ℝ)
    (s : SrvState) :
    (vru_check_riskE vidV vposL vs vh vidP pposL ps ph ts s).2.vehicle_states
        = s.vehicle_states ∧
    ((vru_check_riskE vidV vposL vs vh vidP pposL ps ph ts s).2.vru_buf
        = s.vru_buf
      ∨ ∃ r, (vru_check_riskE vidV vposL vs vh vidP pposL ps ph ts s).2.vru_buf
          = ringAppend BUF_SIZE s.vru_buf r) := by
  rcases hv : getXY vposL with e | vp
  · constructor
    · simp [vru_check_riskE, hv]
    · left
      simp [vru_check_riskE, hv]
  · rcases hp : getXY pposL with e | pp
    · constructor
      · simp [vru_check_riskE, hv, hp]
      · left
        simp [vru_check_riskE, hv, hp]
    · constructor
      · simp [vru_check_riskE, hv, hp]
      · right
        simp only [vru_check_riskE, hv, hp]
        exact ⟨_, rfl⟩

end

end V2X
